import Mathlib

/-!
Verification of the JK-BMS bluetooth protocol driver (`bmslib/jikong.py`).

Bytes are modelled as natural numbers, byte strings as `List Nat`, Python
floats as rationals (all arithmetic in scope is exact decimal scaling, far
below the precision where binary floating point could differ observably),
and Python exceptions as explicit `Except`/`Option` results.
-/

/-- Python slice `l[a:b]` (never raises, clips to the list). -/
def pySlice (l : List Nat) (a b : Nat) : List Nat :=
  (l.drop a).take (b - a)

/-- Source `calc_crc`: `sum(message_bytes) & 0xFF`. -/
def calc_crc (message_bytes : List Nat) : Nat :=
  message_bytes.sum &&& 0xFF

/-- Python `int.from_bytes(l, byteorder=little, signed=False)`. -/
def int_from_bytes_le : List Nat → Nat
  | [] => 0
  | b :: rest => b + 256 * int_from_bytes_le rest

/-- Python `int.from_bytes(l, byteorder=little, signed=True)`:
twos-complement reading of the unsigned value. -/
def int_from_bytes_le_signed (l : List Nat) : Int :=
  let n := int_from_bytes_le l
  if n < 2 ^ (8 * l.length - 1) ∨ l.length = 0 then (n : Int)
  else (n : Int) - 2 ^ (8 * l.length)

/-- The response-frame preamble `55 AA EB 90`. -/
def RESP_PREAMBLE : List Nat := [0x55, 0xAA, 0xEB, 0x90]

/-- The constant `MIN_RESPONSE_SIZE = 300` from the source. -/
def MIN_RESPONSE_SIZE : Nat := 300

/-- Claim C9: `calc_crc` of any byte sequence is its arithmetic sum modulo
256, and so always fits in a single byte. -/
theorem calc_crc_eq_sum_mod (B : List Nat) :
    calc_crc B = B.sum % 256 ∧ calc_crc B < 256 := by
  have h : B.sum &&& 255 = B.sum % 256 := by
    simpa using Nat.and_pow_two_sub_one_eq_mod B.sum 8
  refine ⟨h, ?_⟩
  rw [calc_crc]
  show B.sum &&& 255 < 256
  rw [h]
  exact Nat.mod_lt _ (by norm_num)

/-- Distinguishing payloads of the `AssertionError`s raised by the source. -/
inductive ErrMsg where
  | alreadyWaiting
  | numCellsUnexpected
  | capacityMismatch
  deriving DecidableEq, Repr

/-- The Python exceptions the driver can raise, plus the `disconnected`
failure that the specification expects waiters to be woken with. -/
inductive PyErr where
  | assertionError (msg : ErrMsg)
  | keyError
  | indexError
  | timeoutError
  | connectError
  | disconnected
  deriving DecidableEq, Repr

/-- The sleep taken after failed connect attempt number `attempt`:
`0.2 * (1.5 ** attempt)` seconds, from the source. -/
def backoff_delay (attempt : Nat) : ℚ :=
  2 / 10 * (3 / 2 : ℚ) ^ attempt

/-- Observable trace of the `connect` retry loop when every transport
connect attempt fails. -/
structure ConnectTrace where
  attempts : Nat
  sleeps : List ℚ
  scanner_stopped : Bool
  raised : PyErr
  deriving DecidableEq, Repr

/-- The `while True` retry loop of `JKBt.connect`, under the assumption that
attempt number `a` fails with `errs a`.  Mirrors the source: on failure the
client is disconnected, and if `attempt < 8` the loop sleeps
`0.2 * 1.5 ** attempt` and retries with `attempt + 1`; otherwise it stops the
scanner and re-raises.  `fuel` bounds the recursion; the theorems show any
fuel of at least 8 gives the same trace, so the bound is not binding. -/
def connect_loop (errs : Nat → PyErr) : Nat → Nat → ConnectTrace
  | 0, attempt => ⟨0, [], false, errs attempt⟩
  | fuel + 1, attempt =>
    if attempt < 8 then
      let r := connect_loop errs fuel (attempt + 1)
      { r with attempts := r.attempts + 1,
               sleeps := backoff_delay attempt :: r.sleeps }
    else ⟨1, [], true, errs attempt⟩

/-- Claim C6: with every connect attempt failing, the loop started at
attempt 1 makes exactly 8 attempts (independently of any extra fuel, so
there is never a 9th), sleeps the seven delays `0.2 * 1.5 ** a` for
`a = 1..7` between them, stops the scanner, and propagates the error of the
8th (last) attempt. -/
theorem connect_loop_eight_attempts (errs : Nat → PyErr) (extra : Nat) :
    connect_loop errs (extra + 8) 1 =
      ⟨8, (List.range 7).map (fun k => backoff_delay (k + 1)), true, errs 8⟩ ∧
    (List.range 7).map (fun k => backoff_delay (k + 1)) =
      [3/10, 9/20, 27/40, 81/80, 243/160, 729/320, 2187/640] := by
  constructor
  · rfl
  · simp only [List.range_succ, List.map_append, List.map_cons, List.map_nil,
      List.range_zero, backoff_delay]
    norm_num

/-- What one notification-handler invocation can emit: a verified frame
(passed to `_decode_msg`) or a logged checksum failure. -/
inductive Emit where
  | frame (f : List Nat)
  | crcError
  deriving DecidableEq, Repr

/-- The threshold/checksum part of `_notification_handler`, applied to the
buffer after the preamble check and append.  Returns `none` for a Python
exception (the indexed access `self._buffer[MIN_RESPONSE_SIZE - 1]`); all
other accesses are slices, which cannot raise. -/
def handler_step (buf : List Nat) : Option (List Nat × Option Emit) :=
  if MIN_RESPONSE_SIZE ≤ buf.length then
    match buf.get? (MIN_RESPONSE_SIZE - 1) with
    | none => none
    | some crc_expected =>
      if calc_crc (pySlice buf 0 (MIN_RESPONSE_SIZE - 1)) ≠ crc_expected then
        some ([], some Emit.crcError)
      else
        some ([], some (Emit.frame buf))
  else
    some (buf, none)

/-- Source `JKBt._notification_handler`: if the fragment `data` begins with the
response preamble the buffer is cleared, then `data` is appended, then the
threshold/checksum step runs. -/
def notification_handler (buffer data : List Nat) :
    Option (List Nat × Option Emit) :=
  handler_step ((if pySlice data 0 4 = RESP_PREAMBLE then [] else buffer) ++ data)

/-- Feed a list of fragments to the handler in order, returning the final
buffer and all emissions.  A Python exception (never reached) stops the
stream. -/
def processFragments (buffer : List Nat) : List (List Nat) → List Nat × List Emit
  | [] => (buffer, [])
  | d :: ds =>
    match notification_handler buffer d with
    | none => (buffer, [])
    | some (buf1, em) =>
      let r := processFragments buf1 ds
      (r.1, em.toList ++ r.2)

/-- A valid 300-byte response frame: correct length, preamble and checksum
trailer. -/
def validResponseFrame (F : List Nat) : Prop :=
  F.length = 300 ∧ F.take 4 = RESP_PREAMBLE ∧ calc_crc (F.take 299) = F.getD 299 0

instance : DecidablePred validResponseFrame := fun F => by
  unfold validResponseFrame
  infer_instance

lemma pySlice_zero (l : List Nat) (n : Nat) : pySlice l 0 n = l.take n := by
  simp [pySlice]

lemma get?_eq_getD_of_lt (l : List Nat) (n : Nat) (h : n < l.length) :
    l.get? n = some (l.getD n 0) := by
  induction l generalizing n with
  | nil => simp at h
  | cons a t ih =>
    cases n with
    | zero => simp [List.getD]
    | succ m =>
      have hm : m < t.length := by simpa using h
      simpa [List.getD] using ih m hm

lemma handler_step_below (buf : List Nat) (h : buf.length < 300) :
    handler_step buf = some (buf, none) := by
  unfold handler_step
  rw [if_neg]
  simpa [MIN_RESPONSE_SIZE] using h

lemma handler_step_emit (F : List Nat) (hF : validResponseFrame F) :
    handler_step F = some ([], some (Emit.frame F)) := by
  obtain ⟨hlen, _, hcrc⟩ := hF
  have h299 : (299 : Nat) < F.length := by omega
  unfold handler_step
  rw [if_pos (by simpa [MIN_RESPONSE_SIZE] using Nat.le_of_eq hlen.symm)]
  have hget : F.get? (MIN_RESPONSE_SIZE - 1) = some (F.getD 299 0) := by
    simpa [MIN_RESPONSE_SIZE] using get?_eq_getD_of_lt F 299 h299
  rw [hget]
  simp only [MIN_RESPONSE_SIZE, pySlice_zero]
  rw [if_neg]
  simpa using hcrc

lemma handler_empty_buffer (d : List Nat) :
    notification_handler [] d = handler_step d := by
  unfold notification_handler
  split <;> rfl

lemma handler_append (buffer d : List Nat) (hd : pySlice d 0 4 ≠ RESP_PREAMBLE)
    (hlen : (buffer ++ d).length < 300) :
    notification_handler buffer d = some (buffer ++ d, none) := by
  unfold notification_handler
  rw [if_neg hd]
  exact handler_step_below _ hlen

lemma handler_emit (buffer d F : List Nat) (hd : pySlice d 0 4 ≠ RESP_PREAMBLE)
    (hbd : buffer ++ d = F) (hF : validResponseFrame F) :
    notification_handler buffer d = some ([], some (Emit.frame F)) := by
  unfold notification_handler
  rw [if_neg hd, hbd]
  exact handler_step_emit F hF

lemma join_ne_nil {rest : List (List Nat)} (h : rest ≠ [])
    (hne : ∀ f ∈ rest, f ≠ []) : rest.flatten ≠ [] := by
  cases rest with
  | nil => exact absurd rfl h
  | cons g gs =>
    have hg : g ≠ [] := hne g (by simp)
    simp only [List.flatten_cons, ne_eq, List.append_eq_nil]
    intro hc
    exact hg hc.1

lemma processFragments_assembles (F : List Nat) (hF : validResponseFrame F) :
    ∀ (frags : List (List Nat)) (buffer : List Nat),
      buffer ++ frags.flatten = F → frags ≠ [] →
      (∀ f ∈ frags, f ≠ []) →
      (∀ f ∈ frags, pySlice f 0 4 ≠ RESP_PREAMBLE) →
      processFragments buffer frags = ([], [Emit.frame F]) := by
  intro frags
  induction frags with
  | nil => intro buffer _ hne; exact absurd rfl hne
  | cons f rest ih =>
    intro buffer hjoin _ hne hpre
    have hfpre : pySlice f 0 4 ≠ RESP_PREAMBLE := hpre f (by simp)
    cases rest with
    | nil =>
      have hbf : buffer ++ f = F := by simpa using hjoin
      have hh := handler_emit buffer f F hfpre hbf hF
      simp [processFragments, hh]
    | cons g gs =>
      have hrne : ∀ x ∈ g :: gs, x ≠ [] := fun x hx => hne x (by simp [hx])
      have hjne : (g :: gs).flatten ≠ [] :=
        join_ne_nil (by simp) hrne
      have hjlen : 0 < (g :: gs).flatten.length := List.length_pos.mpr hjne
      have hlen : ((buffer ++ f).length + (g :: gs).flatten.length) = F.length := by
        have := congrArg List.length hjoin
        simpa [List.flatten_cons, List.length_append, Nat.add_assoc] using this
      have hflen : (buffer ++ f).length < 300 := by
        have hF300 : F.length = 300 := hF.1
        omega
      have hh := handler_append buffer f hfpre hflen
      have hrec := ih (buffer ++ f)
        (by simpa [List.flatten_cons, List.append_assoc] using hjoin)
        (by simp)
        hrne
        (fun x hx => hpre x (by simp [hx]))
      conv_lhs => rw [processFragments]
      rw [hh]
      simp [hrec]

lemma handler_step_isSome (buf : List Nat) : (handler_step buf).isSome := by
  unfold handler_step
  split
  · rename_i h
    split
    · rename_i heq
      have hlen : buf.length ≤ MIN_RESPONSE_SIZE - 1 := List.get?_eq_none.mp heq
      simp [MIN_RESPONSE_SIZE] at h hlen
      omega
    · split <;> rfl
  · rfl

/-- Claim C1 (amended): a valid 300-byte response frame delivered in order
from an empty buffer, cut into nonempty fragments of which none after the
first itself begins with the response preamble, produces exactly one
emission: the verified frame, with the original content, and leaves the
buffer empty. -/
theorem processFragments_one_frame (F : List Nat) (frags : List (List Nat))
    (hF : validResponseFrame F) (hjoin : frags.flatten = F)
    (hne : ∀ f ∈ frags, f ≠ [])
    (htail : ∀ f ∈ frags.tail, pySlice f 0 4 ≠ RESP_PREAMBLE) :
    processFragments [] frags = ([], [Emit.frame F]) := by
  cases frags with
  | nil =>
    exfalso
    have h300 := hF.1
    rw [← hjoin] at h300
    simp at h300
  | cons f rest =>
    cases rest with
    | nil =>
      have hfF : f = F := by simpa using hjoin
      subst hfF
      have hh : notification_handler [] f = some ([], some (Emit.frame f)) := by
        rw [handler_empty_buffer]
        exact handler_step_emit f hF
      simp [processFragments, hh]
    | cons g gs =>
      have hrne : ∀ x ∈ g :: gs, x ≠ [] := fun x hx => hne x (by simp [hx])
      have hjne : (g :: gs).flatten ≠ [] := join_ne_nil (by simp) hrne
      have hjlen : 0 < (g :: gs).flatten.length := List.length_pos.mpr hjne
      have hlen : f.length + (g :: gs).flatten.length = F.length := by
        have := congrArg List.length hjoin
        simpa [List.length_append] using this
      have hflen : f.length < 300 := by
        have h300 := hF.1
        omega
      have hh : notification_handler [] f = some (f, none) := by
        rw [handler_empty_buffer]
        exact handler_step_below f hflen
      have hrec := processFragments_assembles F hF (g :: gs) f
        (by simpa using hjoin) (by simp) hrne
        (fun x hx => htail x (by simpa using hx))
      conv_lhs => rw [processFragments]
      rw [hh]
      simp [hrec]

/-- A valid 300-byte response frame used as concrete witness input. -/
def wFrame : List Nat := RESP_PREAMBLE ++ List.replicate 295 0 ++ [122]

set_option maxRecDepth 8000 in
/-- Witness for C1: the witness frame cut at byte 150 is reassembled into
exactly one emitted frame with the original content. -/
theorem processFragments_one_frame_witness :
    processFragments [] [wFrame.take 150, wFrame.drop 150] =
      ([], [Emit.frame wFrame]) := by
  apply processFragments_one_frame
  · decide
  · decide
  · decide
  · decide

/-- Byte `i` of the counterexample frame: the response preamble at offset 0,
a second occurrence of the preamble bytes inside the payload at offset 10,
and a correct checksum trailer. -/
def cexByte (i : Nat) : Nat :=
  if i = 0 ∨ i = 10 then 0x55
  else if i = 1 ∨ i = 11 then 0xAA
  else if i = 2 ∨ i = 12 then 0xEB
  else if i = 3 ∨ i = 13 then 0x90
  else 0

/-- The counterexample frame: valid, but its payload contains the preamble
byte pattern at offset 10. -/
def cexFrame : List Nat := (List.range 299).map cexByte ++ [244]

/-- The counterexample fragmentation: cut exactly before the embedded
preamble occurrence. -/
def cexFrags : List (List Nat) := [cexFrame.take 10, cexFrame.drop 10]

set_option maxRecDepth 8000 in
/-- Counterexample to C1 as stated: there is a valid 300-byte response frame
and an in-order partition of it into nonempty fragments for which the
handler emits nothing at all (the second fragment starts with the preamble
byte pattern, so the partial buffer is discarded mid-frame). -/
theorem processFragments_drops_frame :
    validResponseFrame cexFrame ∧ cexFrags.flatten = cexFrame ∧
    (∀ f ∈ cexFrags, f ≠ []) ∧ (processFragments [] cexFrags).2 = [] := by
  decide

/-- Claim C10: the notification handler is total — it raises no error on any
fragment (including empty or shorter than the 4-byte preamble); a fragment
shorter than 4 bytes never triggers the frame-start buffer clear (the
fragment is just appended); and no frame is emitted while fewer than 300
bytes are buffered. -/
theorem notification_handler_total (buffer data : List Nat) :
    (∃ out, notification_handler buffer data = some out) ∧
    (data.length < 4 → notification_handler buffer data = handler_step (buffer ++ data)) ∧
    (∀ b e, notification_handler buffer data = some (b, e) →
      (buffer ++ data).length < 300 → e = none) := by
  refine ⟨?_, ?_, ?_⟩
  · exact Option.isSome_iff_exists.mp
      (handler_step_isSome ((if pySlice data 0 4 = RESP_PREAMBLE then [] else buffer) ++ data))
  · intro hlt
    have hne : pySlice data 0 4 ≠ RESP_PREAMBLE := by
      intro hEq
      have := congrArg List.length hEq
      simp [pySlice_zero, List.length_take, RESP_PREAMBLE] at this
      omega
    unfold notification_handler
    rw [if_neg hne]
  · intro b e hsome hlen
    unfold notification_handler at hsome
    by_cases hp : pySlice data 0 4 = RESP_PREAMBLE
    · rw [if_pos hp] at hsome
      have hdl : data.length < 300 := by
        simp only [List.length_append] at hlen
        omega
      have hl : (([] : List Nat) ++ data).length < 300 := by simpa using hdl
      rw [handler_step_below _ hl] at hsome
      simp only [Option.some.injEq, Prod.mk.injEq] at hsome
      exact hsome.2.symm
    · rw [if_neg hp] at hsome
      rw [handler_step_below _ hlen] at hsome
      simp only [Option.some.injEq, Prod.mk.injEq] at hsome
      exact hsome.2.symm

/-- Witness for C10 at a concrete two-byte fragment. -/
theorem notification_handler_total_witness :
    (∃ out, notification_handler [1, 2, 3] [7, 7] = some out) ∧
    notification_handler [1, 2, 3] [7, 7] = handler_step [1, 2, 3, 7, 7] := by
  obtain ⟨h1, h2, _⟩ := notification_handler_total [1, 2, 3] [7, 7]
  exact ⟨h1, h2 (by decide)⟩

/-- Status of an `asyncio.Future`. `failed` is the resolve-with-error state
the specification expects `disconnect` to leave waiters in. -/
inductive FutStatus where
  | pending
  | resolved (v : List Nat)
  | cancelled
  | failed (e : PyErr)
  deriving DecidableEq, Repr

/-- Python `dict` assignment `m[k] = v` on an association list. -/
def dict_insert {α : Type} (m : List (Nat × α)) (k : Nat) (v : α) :
    List (Nat × α) :=
  (k, v) :: m.filter (fun p => p.1 != k)

/-- Python `dict.pop(k, None)`-style removal of a key. -/
def dict_erase {α : Type} (m : List (Nat × α)) (k : Nat) : List (Nat × α) :=
  m.filter (fun p => p.1 != k)

/-- The mutable state of a `JKBt` instance that the request/response
machinery touches: the pending-request table `_fetch_futures` (response tag
to future), the identities of the created futures, the last-known-frame
store `_resp_table`, and the bootstrap device identity. -/
structure JKState where
  fetch_futures : List (Nat × Nat)
  futures : List (Nat × FutStatus)
  next_fut : Nat
  resp_table : List (Nat × List Nat)
  num_cells : Nat
  capacity : ℚ

/-- Allocate a fresh `asyncio.Future()`. -/
def new_future (s : JKState) : Nat × JKState :=
  (s.next_fut,
   { s with futures := dict_insert s.futures s.next_fut FutStatus.pending,
            next_fut := s.next_fut + 1 })

/-- Source `JKBt.disconnect`: `self._fetch_futures.clear()`.  The unsubscribe and
the transport disconnect do not touch the table or the futures, and no
future is resolved here. -/
def disconnect (s : JKState) : JKState :=
  { s with fetch_futures := [] }

/-- The registration step of `JKBt._q(cmd, resp)`:
`assert cmd not in self._fetch_futures` followed by
`self._fetch_futures[resp] = asyncio.Future()`.  Note the assert tests the
key `cmd`, while the table is keyed by response tags `resp`. -/
def q_register (s : JKState) (cmd resp : Nat) : Except PyErr JKState :=
  if (List.lookup cmd s.fetch_futures).isSome then
    Except.error (PyErr.assertionError ErrMsg.alreadyWaiting)
  else
    let r := new_future s
    Except.ok { r.2 with fetch_futures := dict_insert r.2.fetch_futures resp r.1 }

/-- The registration step of `JKBt.fetch(wait=True)`:
`self._fetch_futures[0x02] = asyncio.Future()` — no membership check at
all. -/
def fetch_register (s : JKState) : JKState :=
  let r := new_future s
  { r.2 with fetch_futures := dict_insert r.2.fetch_futures 2 r.1 }

/-- Effect of `asyncio.wait_for(self._fetch_futures[resp], TIMEOUT)` timing
out inside `_q`: the awaited future is cancelled and `TimeoutError`
propagates.  `_q` has no exception handler, so the `_fetch_futures` entry
is not removed. -/
def q_timeout (s : JKState) (resp : Nat) : JKState × PyErr :=
  (match List.lookup resp s.fetch_futures with
   | some fid => { s with futures := dict_insert s.futures fid FutStatus.cancelled }
   | none => s,
   PyErr.timeoutError)

/-- Source `JKBt._decode_msg`: store the frame in `_resp_table` under the tag at
offset 4 (`none` models the `IndexError` for a short frame, unreachable
from the assembler), then pop and resolve any pending future for that
tag. -/
def decode_msg (s : JKState) (buf : List Nat) : Option JKState :=
  match buf.get? 4 with
  | none => none
  | some resp_type =>
    let s1 := { s with resp_table := dict_insert s.resp_table resp_type buf }
    match List.lookup resp_type s1.fetch_futures with
    | none => some s1
    | some fid =>
      some { s1 with fetch_futures := dict_erase s1.fetch_futures resp_type,
                     futures := dict_insert s1.futures fid (FutStatus.resolved buf) }

/-- A state with one in-flight waiter: future 0 is pending and registered
for telemetry tag 2. -/
def sPend : JKState :=
  { fetch_futures := [(2, 0)], futures := [(0, FutStatus.pending)],
    next_fut := 1, resp_table := [], num_cells := 16, capacity := 100 }

/-- Claim C2 (amended): `disconnect` empties the pending-request table but
does not resolve the outstanding futures — in-flight waiters stay suspended
on their (now orphaned) futures until their own timeouts; the futures and
the last-known-frame store are untouched. -/
theorem disconnect_clears_table (s : JKState) :
    (disconnect s).fetch_futures = [] ∧
    (disconnect s).futures = s.futures ∧
    (disconnect s).resp_table = s.resp_table :=
  ⟨rfl, rfl, rfl⟩

/-- Counterexample to C2 as stated: disconnecting a state with one in-flight
waiter leaves the future of that waiter still pending — it is not resolved with a
`Disconnected` failure. -/
theorem disconnect_leaves_waiter_pending :
    (disconnect sPend).fetch_futures = [] ∧
    List.lookup 0 (disconnect sPend).futures = some FutStatus.pending ∧
    FutStatus.pending ≠ FutStatus.failed PyErr.disconnected := by
  refine ⟨rfl, rfl, by decide⟩

/-- Claim C3 is violated by the code: with a Pending Request for tag 2
outstanding (future 0), the `_q(cmd=0x96, resp=0x02)` registration does not
fail with AlreadyWaiting — the assert tests `cmd` against a table keyed by
response tags — and silently replaces the pending future with a new one
(future 1), leaving the old waiter orphaned; the `fetch(wait=True)` path
performs no check at all and likewise overwrites. -/
theorem register_overwrites_pending :
    ((q_register sPend 0x96 0x02).toOption.map
      (fun s' => (List.lookup 2 s'.fetch_futures, List.lookup 0 s'.futures))) =
      some (some 1, some FutStatus.pending) ∧
    List.lookup 2 (fetch_register sPend).fetch_futures = some 1 ∧
    List.lookup 0 (fetch_register sPend).futures = some FutStatus.pending := by
  refine ⟨rfl, rfl, rfl⟩

/-- Claim C4 (amended): when `await_response` times out the call fails with
the timeout error and the awaited future is cancelled, but the Pending
Request entry is not removed — the table is left exactly as it was, and the
entry disappears only when a matching frame later arrives or at
disconnect. -/
theorem q_timeout_table_unchanged (s : JKState) (resp : Nat) :
    (q_timeout s resp).2 = PyErr.timeoutError ∧
    (q_timeout s resp).1.fetch_futures = s.fetch_futures ∧
    (q_timeout s resp).1.resp_table = s.resp_table := by
  unfold q_timeout
  cases h : List.lookup resp s.fetch_futures <;> simp

/-- Counterexample to C4 as stated: timing out the waiter for tag 2 leaves
the pending-request table still holding the tag-2 entry, not empty. -/
theorem q_timeout_keeps_entry :
    (q_timeout sPend 2).2 = PyErr.timeoutError ∧
    (q_timeout sPend 2).1.fetch_futures = [(2, 0)] ∧
    (q_timeout sPend 2).1.fetch_futures ≠ [] ∧
    List.lookup 0 (q_timeout sPend 2).1.futures = some FutStatus.cancelled := by
  refine ⟨rfl, rfl, by decide, rfl⟩

/-- The `i16` lambda of `JKBt.fetch`: `int.from_bytes(buf[i:i+2],
byteorder=little)` — despite the name, an UNSIGNED 2-byte read (the source
omits `signed=True`). -/
def i16 (buf : List Nat) (i : Nat) : Nat :=
  int_from_bytes_le (pySlice buf i (i + 2))

/-- The `u32` lambda of `JKBt.fetch`: `int.from_bytes(buf[i:i+2],
byteorder=little, signed=False)` — despite the name, the source slices
only 2 bytes. -/
def u32 (buf : List Nat) (i : Nat) : Nat :=
  int_from_bytes_le (pySlice buf i (i + 2))

/-- The `f32u` lambda of `JKBt.fetch`: 4-byte unsigned little-endian read
scaled by `1e-3`. -/
def f32u (buf : List Nat) (i : Nat) : ℚ :=
  (int_from_bytes_le (pySlice buf i (i + 4)) : ℚ) / 1000

/-- The `f32s` lambda of `JKBt.fetch`: 4-byte signed little-endian read
scaled by `1e-3`. -/
def f32s (buf : List Nat) (i : Nat) : ℚ :=
  (int_from_bytes_le_signed (pySlice buf i (i + 4)) : ℚ) / 1000

/-- The decoded public telemetry sample (the `BmsSample` fields set by
`JKBt.fetch`). -/
structure BmsSample where
  voltage : ℚ
  current : ℚ
  charge_full : ℚ
  temperatures : List ℚ
  mos_temperature : ℚ
  balance_current : ℚ
  charge : ℚ
  num_cycles : Nat
  deriving DecidableEq, Repr

/-- The decode part of `JKBt.fetch`: the capacity assert followed by the
field decodes, exactly as in the source. -/
def fetch_decode (buf : List Nat) (capacity : ℚ) : Except PyErr BmsSample :=
  if f32u buf 146 = capacity then
    Except.ok
      { voltage := f32u buf 118
        current := f32s buf 126
        charge_full := capacity
        temperatures := [(i16 buf 130 : ℚ) / 10, (i16 buf 132 : ℚ) / 10]
        mos_temperature := (i16 buf 134 : ℚ) / 10
        balance_current := (i16 buf 138 : ℚ) / 1000
        charge := f32u buf 142
        num_cycles := u32 buf 150 }
  else
    Except.error (PyErr.assertionError ErrMsg.capacityMismatch)

/-- Source `JKBt.fetch(wait=False)`: read the last-known telemetry frame
(`self._resp_table[0x02]`, `KeyError` if none yet) and decode it. -/
def fetch_nowait (s : JKState) : Except PyErr BmsSample :=
  match List.lookup 2 s.resp_table with
  | none => Except.error PyErr.keyError
  | some buf => fetch_decode buf s.capacity

/-- Source `JKBt.fetch` performs no state mutation; pairing the pure read with the
unchanged state records that the call is atomic. -/
def fetch_nowait_st (s : JKState) : Except PyErr BmsSample × JKState :=
  (fetch_nowait s, s)

/-- The telemetry decode as the claim C5 words it (spec side of the
comparison, not the source): temperatures, MOS temperature and balance
current are SIGNED 2-byte reads, and the cycle count is an unsigned 4-byte
read. -/
def spec_sample (buf : List Nat) (capacity : ℚ) : BmsSample :=
  { voltage := (int_from_bytes_le (pySlice buf 118 (118 + 4)) : ℚ) / 1000
    current := (int_from_bytes_le_signed (pySlice buf 126 (126 + 4)) : ℚ) / 1000
    charge_full := capacity
    temperatures := [(int_from_bytes_le_signed (pySlice buf 130 (130 + 2)) : ℚ) / 10,
                     (int_from_bytes_le_signed (pySlice buf 132 (132 + 2)) : ℚ) / 10]
    mos_temperature := (int_from_bytes_le_signed (pySlice buf 134 (134 + 2)) : ℚ) / 10
    balance_current := (int_from_bytes_le_signed (pySlice buf 138 (138 + 2)) : ℚ) / 1000
    charge := (int_from_bytes_le (pySlice buf 142 (142 + 4)) : ℚ) / 1000
    num_cycles := int_from_bytes_le (pySlice buf 150 (150 + 4)) }

/-- Byte `i` of a telemetry frame whose temperature[0] raw bytes are
`FF FF` (-0.1 deg C as a signed value), whose cycle-count field is
`00 00 01 00` (65536 as a 4-byte value), and whose full-charge field is
100.0, with a correct checksum trailer. -/
def tByte (i : Nat) : Nat :=
  if i = 0 then 0x55 else if i = 1 then 0xAA
  else if i = 2 then 0xEB else if i = 3 then 0x90
  else if i = 4 then 2
  else if i = 130 ∨ i = 131 then 0xFF
  else if i = 146 then 0xA0 else if i = 147 then 0x86 else if i = 148 then 1
  else if i = 152 then 1
  else 0

/-- The telemetry frame generated by `tByte`. -/
def tFrame : List Nat :=
  (List.range 299).map tByte ++ [calc_crc ((List.range 299).map tByte)]

set_option maxRecDepth 8000 in
/-- Claim C5 is violated by the code: on the stored telemetry frame `tFrame`
(full-charge field matching the capacity 100.0) the source decodes
temperature[0] from raw bytes `FF FF` as the unsigned value 6553.5 and the
cycle count from raw bytes `00 00 01 00` as the 2-byte value 0, while the
claimed decode (signed 2-byte temperature, unsigned 4-byte cycle count)
gives -0.1 and 65536.  The `i16` lambda omits `signed=True` and the `u32`
lambda slices only 2 bytes. -/
theorem fetch_decode_signedness_divergence :
    validResponseFrame tFrame ∧
    (∃ smp, fetch_decode tFrame 100 = Except.ok smp ∧
      smp.temperatures.getD 0 0 = 13107 / 2 ∧
      smp.mos_temperature = 0 ∧
      smp.num_cycles = 0) ∧
    (spec_sample tFrame 100).temperatures.getD 0 0 = -1 / 10 ∧
    (spec_sample tFrame 100).num_cycles = 65536 := by
  have h146 : int_from_bytes_le (pySlice tFrame 146 (146 + 4)) = 100000 := by decide
  have hcap : f32u tFrame 146 = 100 := by
    unfold f32u
    rw [h146]
    norm_num
  refine ⟨by decide, ?_, ?_, by decide⟩
  · refine ⟨_, by rw [fetch_decode, if_pos hcap], ?_, ?_, ?_⟩
    · have h130 : i16 tFrame 130 = 65535 := by decide
      simp only [List.getD, List.get?, h130]
      norm_num
    · have h134 : i16 tFrame 134 = 0 := by decide
      simp only [h134]
      norm_num
    · decide
  · have h130s : int_from_bytes_le_signed (pySlice tFrame 130 (130 + 2)) = -1 := by
      decide
    simp only [spec_sample, List.getD, List.get?, h130s]
    norm_num

/-- The device-identity bootstrap step of `JKBt.connect`, applied to the
last-known tag-0x01 frame `buf = self._resp_table[0x01]`:
`self.num_cells = buf[114]`, the range assert, then
`self.capacity = int.from_bytes(buf[130:134], little, signed=False) * 0.001`. -/
def parse_device_identity (buf : List Nat) : Except PyErr (Nat × ℚ) :=
  match buf.get? 114 with
  | none => Except.error PyErr.indexError
  | some num_cells =>
    if 0 < num_cells ∧ num_cells ≤ 48 then
      Except.ok (num_cells, (int_from_bytes_le (pySlice buf 130 (130 + 4)) : ℚ) / 1000)
    else
      Except.error (PyErr.assertionError ErrMsg.numCellsUnexpected)

/-- Claim C7: Device Identity is derived from the tag-0x01 frame as the byte
at offset 114 (cell count) and the unsigned 4-byte little-endian value at
offset 130 scaled by 0.001 (rated capacity); the bootstrap fails with the
cell-count assertion exactly when that byte is 0 or exceeds 48, and
otherwise both values are produced. -/
theorem parse_device_identity_spec (buf : List Nat) (nc b0 b1 b2 b3 : Nat)
    (h114 : buf.get? 114 = some nc)
    (h130 : pySlice buf 130 (130 + 4) = [b0, b1, b2, b3]) :
    (parse_device_identity buf =
        Except.error (PyErr.assertionError ErrMsg.numCellsUnexpected) ↔
      (nc = 0 ∨ 48 < nc)) ∧
    (0 < nc → nc ≤ 48 →
      parse_device_identity buf =
        Except.ok (nc, ((b0 : ℚ) + 256 * b1 + 65536 * b2 + 16777216 * b3) / 1000)) := by
  have hred : parse_device_identity buf =
      (if 0 < nc ∧ nc ≤ 48 then
        Except.ok (nc, (int_from_bytes_le (pySlice buf 130 (130 + 4)) : ℚ) / 1000)
      else Except.error (PyErr.assertionError ErrMsg.numCellsUnexpected)) := by
    unfold parse_device_identity
    rw [h114]
  rw [hred]
  constructor
  · by_cases h : 0 < nc ∧ nc ≤ 48
    · rw [if_pos h]
      simp only [reduceCtorEq, false_iff]
      omega
    · rw [if_neg h]
      simp only [true_iff]
      omega
  · intro h1 h2
    rw [if_pos ⟨h1, h2⟩, h130]
    have hval : (int_from_bytes_le [b0, b1, b2, b3] : ℚ) =
        (b0 : ℚ) + 256 * b1 + 65536 * b2 + 16777216 * b3 := by
      simp only [int_from_bytes_le]
      push_cast
      ring
    rw [hval]

/-- Byte `i` of a device-info frame with cell count 16 at offset 114 and
capacity raw bytes for 100.0 Ah at offset 130. -/
def idByte (i : Nat) : Nat :=
  if i = 0 then 0x55 else if i = 1 then 0xAA
  else if i = 2 then 0xEB else if i = 3 then 0x90
  else if i = 4 then 1
  else if i = 114 then 16
  else if i = 130 then 0xA0 else if i = 131 then 0x86 else if i = 132 then 1
  else 0

/-- The device-info frame generated by `idByte`. -/
def idFrame : List Nat :=
  (List.range 299).map idByte ++ [calc_crc ((List.range 299).map idByte)]

set_option maxRecDepth 8000 in
/-- Witness for C7: the concrete device-info frame yields cell count 16 and
capacity 100.0 Ah. -/
theorem parse_device_identity_witness :
    parse_device_identity idFrame = Except.ok (16, 100) := by
  have h := parse_device_identity_spec idFrame 16 0xA0 0x86 1 0 (by decide) (by decide)
  rw [h.2 (by decide) (by decide)]
  norm_num

lemma dict_insert_lookup {α : Type} (m : List (Nat × α)) (k : Nat) (v : α) :
    List.lookup k (dict_insert m k v) = some v := by
  simp [dict_insert, List.lookup]

lemma fetch_nowait_of_match (s2 : JKState) (buf2 : List Nat)
    (hrt : List.lookup 2 s2.resp_table = some buf2)
    (hcap : f32u buf2 146 = s2.capacity) :
    ∃ smp, fetch_nowait s2 = Except.ok smp ∧ smp.charge_full = s2.capacity := by
  have h1 : fetch_nowait s2 = fetch_decode buf2 s2.capacity := by
    unfold fetch_nowait
    rw [hrt]
  exact ⟨_, by rw [h1, fetch_decode, if_pos hcap], rfl⟩

/-- Claim C8: with a stored telemetry frame whose full-charge field differs
from the bootstrap capacity, `fetch` fails with the capacity-mismatch
assertion; the failure is atomic (the state, in particular the
last-known-frame store and the device identity, is unchanged), and after the
router stores a telemetry frame whose full-charge field matches, a
subsequent `fetch` succeeds with that capacity. -/
theorem fetch_capacity_mismatch (s : JKState) (buf : List Nat)
    (hbuf : List.lookup 2 s.resp_table = some buf)
    (hmis : f32u buf 146 ≠ s.capacity) :
    (fetch_nowait_st s).1 = Except.error (PyErr.assertionError ErrMsg.capacityMismatch) ∧
    (fetch_nowait_st s).2 = s ∧
    (∀ buf2 s2, buf2.get? 4 = some 2 → f32u buf2 146 = s.capacity →
      decode_msg s buf2 = some s2 →
      s2.capacity = s.capacity ∧ s2.num_cells = s.num_cells ∧
      ∃ smp, (fetch_nowait_st s2).1 = Except.ok smp ∧
        smp.charge_full = s.capacity) := by
  refine ⟨?_, rfl, ?_⟩
  · have h1 : fetch_nowait s = fetch_decode buf s.capacity := by
      unfold fetch_nowait
      rw [hbuf]
    show fetch_nowait s = _
    rw [h1, fetch_decode, if_neg hmis]
  · intro buf2 s2 h4 hcap hdec
    simp only [decode_msg, h4] at hdec
    split at hdec
    · have hx := Option.some.inj hdec
      subst hx
      exact ⟨rfl, rfl, fetch_nowait_of_match
        { s with resp_table := dict_insert s.resp_table 2 buf2 } buf2
        (dict_insert_lookup s.resp_table 2 buf2) hcap⟩
    · rename_i fid heq
      have hx := Option.some.inj hdec
      subst hx
      exact ⟨rfl, rfl, fetch_nowait_of_match
        { s with fetch_futures := dict_erase s.fetch_futures 2,
                 futures := dict_insert s.futures fid (FutStatus.resolved buf2),
                 resp_table := dict_insert s.resp_table 2 buf2 } buf2
        (dict_insert_lookup s.resp_table 2 buf2) hcap⟩

/-- Byte `i` of a telemetry frame like `tByte` but whose full-charge field
holds 99.5 instead of 100.0. -/
def bByte (i : Nat) : Nat :=
  if i = 146 then 0xAC else if i = 147 then 0x84 else if i = 148 then 1
  else tByte i

/-- The mismatching telemetry frame generated by `bByte`. -/
def bFrame : List Nat :=
  (List.range 299).map bByte ++ [calc_crc ((List.range 299).map bByte)]

/-- A connected state with capacity 100.0 whose last-known telemetry frame
carries full-charge 99.5. -/
def s8 : JKState :=
  { fetch_futures := [], futures := [], next_fut := 0,
    resp_table := [(2, bFrame)], num_cells := 16, capacity := 100 }

set_option maxRecDepth 8000 in
/-- Witness for C8: on `s8` the fetch fails with the capacity-mismatch
assertion, and after the matching frame `tFrame` is stored a fetch succeeds
with full charge 100.0. -/
theorem fetch_capacity_mismatch_witness :
    (fetch_nowait_st s8).1 = Except.error (PyErr.assertionError ErrMsg.capacityMismatch) ∧
    ∃ smp,
      (fetch_nowait_st { s8 with resp_table := dict_insert s8.resp_table 2 tFrame }).1 =
        Except.ok smp ∧ smp.charge_full = 100 := by
  have hmis : f32u bFrame 146 ≠ s8.capacity := by
    have h : int_from_bytes_le (pySlice bFrame 146 (146 + 4)) = 99500 := by decide
    show f32u bFrame 146 ≠ (100 : ℚ)
    unfold f32u
    rw [h]
    norm_num
  have hcap : f32u tFrame 146 = s8.capacity := by
    have h : int_from_bytes_le (pySlice tFrame 146 (146 + 4)) = 100000 := by decide
    show f32u tFrame 146 = (100 : ℚ)
    unfold f32u
    rw [h]
    norm_num
  have h := fetch_capacity_mismatch s8 bFrame (by decide) hmis
  have hdec : decode_msg s8 tFrame =
      some { s8 with resp_table := dict_insert s8.resp_table 2 tFrame } := by
    rfl
  have h3 := h.2.2 tFrame _ (by decide) hcap hdec
  exact ⟨h.1, h3.2.2⟩
